import Mathlib

/-!
Verification of the gym-management system (src/gym) against its specification.

The Python source is shallowly embedded: each dataclass becomes a structure,
each method a function.  Mutating methods are modelled in state-passing style
as `state → args → Except Err α × state`, where the returned state reflects any
mutation performed before an exception was raised (Python exceptions do not
roll back earlier in-place mutations).  Python `float` amounts are modelled as
`ℚ`; `dict` as an association list (`PyDict`); `datetime`/`date` values as
opaque ISO strings.  `uuid4().hex` id generation is determinized: constructors
take the minted identifier as an explicit parameter, and decoders thread a
natural-number counter in its place.
-/


/-- Whitespace characters removed by Python `str.strip()` (ASCII subset). -/
def pyWS (c : Char) : Bool :=
  c = ' ' ∨ c = '\t' ∨ c = '\n' ∨ c = '\r' ∨ c = '\x0b' ∨ c = '\x0c'

/-- Python `str.strip()`: drop leading and trailing whitespace.  (Defined over
the character list so that it reduces inside the kernel.) -/
def String.pyStrip (s : String) : String :=
  String.mk (((s.data.dropWhile pyWS).reverse.dropWhile pyWS).reverse)

/-- Python `str.lower()` (ASCII). -/
def String.pyLower (s : String) : String :=
  String.mk (s.data.map Char.toLower)

/-- Python `c in s` for a single-character needle. -/
def String.pyContains (s : String) (c : Char) : Bool :=
  s.data.contains c

namespace GymSpec

/-- Exception classes raised by the source.  `validation` and `notFound` are
the domain errors from gym.py; the `py*` constructors stand for Python built-in
exceptions (`TypeError`, `ValueError`, `KeyError`, `AttributeError`) and
`jsonDecodeError` for `json.JSONDecodeError`, none of which subclass the
domain `GymError`. -/
inductive Err
  | validation (msg : String)
  | notFound (msg : String)
  | pyTypeError
  | pyValueError
  | pyKeyError
  | pyAttributeError
  | jsonDecodeError
deriving DecidableEq, Repr

/-- Decidable equality of `Except` outcomes, used to evaluate the theorems on
concrete inputs. -/
instance [DecidableEq ε] [DecidableEq α] : DecidableEq (Except ε α) := fun x y =>
  match x, y with
  | .ok a, .ok b => if h : a = b then .isTrue (by rw [h]) else .isFalse (by simp [h])
  | .error a, .error b => if h : a = b then .isTrue (by rw [h]) else .isFalse (by simp [h])
  | .ok _, .error _ => .isFalse (by simp)
  | .error _, .ok _ => .isFalse (by simp)

/-- True exactly on a raised `ValidationError`. -/
def isValidationError : Except Err α → Bool
  | .error (.validation _) => true
  | _ => false

/-- True exactly on a raised `NotFoundError`. -/
def isNotFoundError : Except Err α → Bool
  | .error (.notFound _) => true
  | _ => false

/-- `MembershipStatus` enum from gym.py. -/
inductive MembershipStatus
  | ACTIVE
  | PAUSED
  | CANCELLED
deriving DecidableEq, Repr

/-- The `.value` string of each `MembershipStatus` enum member. -/
def MembershipStatus.value : MembershipStatus → String
  | .ACTIVE => "active"
  | .PAUSED => "paused"
  | .CANCELLED => "cancelled"

/-- `MembershipStatus(s)` enum construction from a value string; `none` models
the `ValueError` Python raises for an unknown value. -/
def MembershipStatus.ofValue? (s : String) : Option MembershipStatus :=
  if s = "active" then some .ACTIVE
  else if s = "paused" then some .PAUSED
  else if s = "cancelled" then some .CANCELLED
  else none

/-- `PaymentStatus` enum from gym.py. -/
inductive PaymentStatus
  | SUCCESS
  | FAILED
deriving DecidableEq, Repr

/-- The `.value` string of each `PaymentStatus` enum member. -/
def PaymentStatus.value : PaymentStatus → String
  | .SUCCESS => "success"
  | .FAILED => "failed"

/-- `PaymentStatus(s)` enum construction from a value string. -/
def PaymentStatus.ofValue? (s : String) : Option PaymentStatus :=
  if s = "success" then some .SUCCESS
  else if s = "failed" then some .FAILED
  else none

/-- Python `dict[str, α]`: an association list with (by construction) unique
keys; `d[k] = v` preserves an existing key's position and appends new keys,
matching insertion-order semantics. -/
abbrev PyDict (α : Type) := List (String × α)

/-- `d.get(k)` / `d[k]` lookup. -/
def dget? (d : PyDict α) (k : String) : Option α :=
  (d.find? (fun p => p.1 == k)).map (·.2)

/-- `k in d`. -/
def dmem (d : PyDict α) (k : String) : Bool :=
  (dget? d k).isSome

/-- `d[k] = v`: update in place if the key exists, else append. -/
def dset (d : PyDict α) (k : String) (v : α) : PyDict α :=
  if dmem d k then d.map (fun p => if p.1 == k then (k, v) else p)
  else d ++ [(k, v)]

/-- `d.pop(k)` (key assumed present by callers): remove the key's entry. -/
def dpop (d : PyDict α) (k : String) : PyDict α :=
  d.filter (fun p => p.1 != k)

/-- `d.setdefault(k, []).append(v)` on a dict of lists. -/
def dappend (d : PyDict (List String)) (k : String) (v : String) : PyDict (List String) :=
  match dget? d k with
  | some xs => dset d k (xs ++ [v])
  | none => d ++ [(k, [v])]


/-- JSON-compatible structured values, the intermediate representation produced
by the `*_to_dict` encoders and consumed by the `*_from_dict` decoders. -/
inductive Jval
  | null
  | str (s : String)
  | num (q : ℚ)
  | jbool (b : Bool)
  | arr (xs : List Jval)
  | obj (fields : List (String × Jval))

/-- Whether a `Jval` is a JSON object (a Python `dict`). -/
def Jval.isObj : Jval → Bool
  | .obj _ => true
  | _ => false

/-- `PricePolicy` hierarchy from pricing.py, as a closed tagged variant.
Constructor invariants (`0 < discount < 1`, `price > 0`) are enforced by the
`mk?` builders below, mirroring the `__post_init__` validation. -/
inductive PricePolicy
  | NoDiscount
  | PercentOff (discount : ℚ)
  | FixedPrice (price : ℚ)
deriving DecidableEq, Repr

/-- `PercentOff.__post_init__` validation. -/
def PercentOff.mk? (discount : ℚ) : Except Err PricePolicy :=
  if 0 < discount ∧ discount < 1 then .ok (.PercentOff discount)
  else .error (.validation "Discount must be between 0 and 1, For Example: 20% Discount is 0.20")

/-- `FixedPrice.__post_init__` validation. -/
def FixedPrice.mk? (price : ℚ) : Except Err PricePolicy :=
  if 0 < price then .ok (.FixedPrice price)
  else .error (.validation "Price must be greater than $0.")

/-- `PricePolicy.apply` dispatch from pricing.py. -/
def PricePolicy.apply : PricePolicy → ℚ → ℚ
  | .NoDiscount, base_price => base_price
  | .PercentOff discount, base_price => base_price * (1 - discount)
  | .FixedPrice price, _ => price

/-- Python `round(x, 2)` on the modelled rational amounts.  (Python rounds
binary floats half-to-even; no verified claim exercises a tie, so the rounding
mode of `round` is immaterial here.) -/
def round2 (q : ℚ) : ℚ :=
  ((round (q * 100) : ℤ) : ℚ) / 100

/-- `BasicMembership` / `PremiumMembership` subclass identity, as a tag. -/
inductive MembershipTier
  | basic
  | premium
deriving DecidableEq, Repr

/-- `BaseMembership` dataclass from memberships.py.  `tier` records which
concrete subclass the object is an instance of; `id` is minted by
`new_id("ms")` at construction. -/
structure BaseMembership where
  id : String
  tier : MembershipTier
  price_policy : PricePolicy
  status : MembershipStatus
deriving DecidableEq, Repr

/-- `BasicMembership(price_policy=p)`: `__post_init__` mints a fresh id and
sets the status to ACTIVE. -/
def BasicMembership.make (fresh_id : String) (price_policy : PricePolicy) : BaseMembership :=
  { id := fresh_id, tier := .basic, price_policy := price_policy, status := .ACTIVE }

/-- `PremiumMembership(price_policy=p)`. -/
def PremiumMembership.make (fresh_id : String) (price_policy : PricePolicy) : BaseMembership :=
  { id := fresh_id, tier := .premium, price_policy := price_policy, status := .ACTIVE }

/-- `base_monthly_price` property: 29.99 for Basic, 59.99 for Premium. -/
def BaseMembership.base_monthly_price (m : BaseMembership) : ℚ :=
  match m.tier with
  | .basic => 2999 / 100
  | .premium => 5999 / 100

/-- `monthly_price` property: `round(self.price_policy.apply(self.base_monthly_price), 2)`. -/
def BaseMembership.monthly_price (m : BaseMembership) : ℚ :=
  round2 (m.price_policy.apply m.base_monthly_price)

/-- `is_active` property. -/
def BaseMembership.is_active (m : BaseMembership) : Bool :=
  m.status == .ACTIVE

/-- `BaseMembership.pause`: raises `ValidationError` on a cancelled
membership (before any mutation), else sets status to PAUSED. -/
def BaseMembership.pause (m : BaseMembership) : Except Err Unit × BaseMembership :=
  if m.status = .CANCELLED then
    (.error (.validation "Cannot pause a cancelled membership."), m)
  else
    (.ok (), { m with status := .PAUSED })

/-- `BaseMembership.resume`: raises `ValidationError` on a cancelled
membership, else sets status to ACTIVE. -/
def BaseMembership.resume (m : BaseMembership) : Except Err Unit × BaseMembership :=
  if m.status = .CANCELLED then
    (.error (.validation "Cannot resume a cancelled membership."), m)
  else
    (.ok (), { m with status := .ACTIVE })

/-- `BaseMembership.cancel`: unconditionally sets status to CANCELLED; it has
no precondition and never raises. -/
def BaseMembership.cancel (m : BaseMembership) : Except Err Unit × BaseMembership :=
  (.ok (), { m with status := .CANCELLED })

/-- Python `str.title()`: the first letter of each run of letters is
upper-cased, the rest lower-cased (ASCII approximation of the source's
unicode-aware behaviour; only trainer specialties pass through it). -/
def pyTitle (s : String) : String :=
  String.mk (s.data.foldl
    (fun (acc : List Char × Bool) c =>
      (acc.1 ++ [if acc.2 then c.toLower else c.toUpper], c.isAlpha))
    (([] : List Char), false)).1

/-- `Member` dataclass from people.py (a `Person` with a membership and a
join date).  `join_date` is an opaque ISO date string. -/
structure Member where
  id : String
  full_name : String
  email : String
  membership : BaseMembership
  join_date : String
deriving DecidableEq, Repr

/-- `Member(full_name=..., email=..., membership=..., join_date=...)`:
`Person.__post_init__` validates and strips the name and email and requires
the email to contain both `@` and `.`; `Member.__post_init__` then mints the
`mem_`-prefixed id (overwriting the `per_` id minted by `Person`).  The
`isinstance(self.membership, BaseMembership)` check always passes in the
typed embedding. -/
def Member.make (fresh_id full_name email : String) (membership : BaseMembership)
    (join_date : String) : Except Err Member :=
  if full_name.pyStrip = "" then .error (.validation "Name field cannot be empty.")
  else if email.pyStrip = "" then .error (.validation "Email must be provided.")
  else if ¬ ((email.pyStrip).pyContains '@' ∧ (email.pyStrip).pyContains '.') then
    .error (.validation "Please enter a valid email.")
  else
    .ok { id := fresh_id, full_name := full_name.pyStrip, email := email.pyStrip,
          membership := membership, join_date := join_date }

/-- `is_active` property of `Member`, delegating to the membership. -/
def Member.is_active (m : Member) : Bool :=
  m.membership.is_active

/-- `monthly_price` property of `Member`, delegating to the membership. -/
def Member.monthly_price (m : Member) : ℚ :=
  m.membership.monthly_price

/-- `Trainer` dataclass from people.py. -/
structure Trainer where
  id : String
  full_name : String
  email : String
  specialty : Option String
deriving DecidableEq, Repr

/-- `Trainer(full_name=..., email=..., specialty=...)`: `Person` validation
plus the optional specialty, which must not be only whitespace and is
title-cased. -/
def Trainer.make (fresh_id full_name email : String) (specialty : Option String) :
    Except Err Trainer :=
  if full_name.pyStrip = "" then .error (.validation "Name field cannot be empty.")
  else if email.pyStrip = "" then .error (.validation "Email must be provided.")
  else if ¬ ((email.pyStrip).pyContains '@' ∧ (email.pyStrip).pyContains '.') then
    .error (.validation "Please enter a valid email.")
  else
    match specialty with
    | none => .ok { id := fresh_id, full_name := full_name.pyStrip, email := email.pyStrip,
                    specialty := none }
    | some s =>
      if s.pyStrip = "" then .error (.validation "Speciality cannot be just empty space.")
      else .ok { id := fresh_id, full_name := full_name.pyStrip, email := email.pyStrip,
                 specialty := some (pyTitle s) }

/-- `Exercise` frozen dataclass from workouts.py; `sets`/`reps` are Python
ints, `load` an optional float. -/
structure Exercise where
  name : String
  sets : ℤ
  reps : ℤ
  load : Option ℚ
  notes : Option String
deriving DecidableEq, Repr

/-- `Exercise(...)` construction with `__post_init__` validation: the name is
trimmed and lower-cased and must be non-empty, `sets`/`reps` must be ≥ 1,
`load` non-negative if present, and whitespace-only notes become `None`. -/
def Exercise.make (name : String) (sets reps : ℤ) (load : Option ℚ)
    (notes : Option String) : Except Err Exercise :=
  if (name.pyStrip.pyLower) = "" then .error (.validation "Exercise name cannot be empty.")
  else if sets ≤ 0 then .error (.validation "Sets must be >= 1")
  else if reps ≤ 0 then .error (.validation "Reps must be >= 1")
  else if load.any (fun q => q < 0) then .error (.validation "Load cannot be negative.")
  else
    .ok { name := name.pyStrip.pyLower, sets := sets, reps := reps, load := load,
          notes := notes.bind (fun s => if s.pyStrip = "" then none else some s.pyStrip) }

/-- `WorkoutPlan` dataclass from workouts.py; `_exercises` is the private
append-only list, `created_at` an opaque ISO timestamp string. -/
structure WorkoutPlan where
  member_id : String
  title : String
  id : String
  created_at : String
  exercises : List Exercise
deriving DecidableEq, Repr

/-- `WorkoutPlan(member_id=..., title=...)`: validates and strips both fields,
mints a `wkp_` id and stamps `datetime.now()`, starting with no exercises. -/
def WorkoutPlan.make (member_id title fresh_id now : String) : Except Err WorkoutPlan :=
  if member_id.pyStrip = "" then .error (.validation "member_id cannot be empty.")
  else if title.pyStrip = "" then .error (.validation "title cannot be left empty.")
  else .ok { member_id := member_id.pyStrip, title := title.pyStrip, id := fresh_id,
             created_at := now, exercises := [] }

/-- `WorkoutPlan.add_exercise` (the `isinstance` check always passes in the
typed embedding). -/
def WorkoutPlan.add_exercise (p : WorkoutPlan) (exercise : Exercise) : WorkoutPlan :=
  { p with exercises := p.exercises ++ [exercise] }

/-- `WorkoutCatalog` dataclass from workouts.py: primary map `plans` and
one-to-many secondary index `plans_by_member`. -/
structure WorkoutCatalog where
  plans : PyDict WorkoutPlan
  plans_by_member : PyDict (List String)
deriving DecidableEq, Repr

/-- The empty `WorkoutCatalog()`. -/
def WorkoutCatalog.empty : WorkoutCatalog :=
  { plans := [], plans_by_member := [] }

/-- `WorkoutCatalog.add_plan`: rejects a duplicate plan id, then inserts into
the primary map and appends to the owner's id list. -/
def WorkoutCatalog.add_plan (c : WorkoutCatalog) (plan : WorkoutPlan) :
    Except Err Unit × WorkoutCatalog :=
  if dmem c.plans plan.id then
    (.error (.validation "This plan already exists in the system."), c)
  else
    (.ok (), { c with plans := dset c.plans plan.id plan,
                      plans_by_member := dappend c.plans_by_member plan.member_id plan.id })

/-- `WorkoutCatalog.get_plan`: raises `ValidationError` (not `NotFoundError`)
when the plan id is absent. -/
def WorkoutCatalog.get_plan (c : WorkoutCatalog) (plan_id : String) : Except Err WorkoutPlan :=
  match dget? c.plans plan_id with
  | none => .error (.validation s!"Plan with '{plan_id}' does not exist in the system.")
  | some plan => .ok plan

/-- `WorkoutCatalog.list_all_plans_for_member`. -/
def WorkoutCatalog.list_all_plans_for_member (c : WorkoutCatalog) (member_id : String) :
    List WorkoutPlan :=
  ((dget? c.plans_by_member member_id).getD []).filterMap (fun pid => dget? c.plans pid)

/-- `WorkoutCatalog.remove_plan`, embedded exactly as written in the source:
after popping the plan from the primary map it evaluates
`plan_ids = self.plans.get(member_id_key)` — reading the PRIMARY `plans` map
with the owning member's id, not `plans_by_member` — and it never deletes the
plan id from `plans_by_member`.  Since member ids are not plan ids, the
well-formed path always raises `ValidationError` with the primary entry
already popped; were the member id somehow a key of `plans`, the subsequent
Python expression `plan_id not in plan_ids` would apply `in` to a
`WorkoutPlan` and raise `TypeError`. -/
def WorkoutCatalog.remove_plan (c : WorkoutCatalog) (plan_id : String) :
    Except Err Unit × WorkoutCatalog :=
  match dget? c.plans plan_id with
  | none => (.error (.validation "This plan does not exist in the system."), c)
  | some plan =>
    let member_id_key := plan.member_id
    let c' : WorkoutCatalog := { c with plans := dpop c.plans plan_id }
    match dget? c'.plans member_id_key with
    | none => (.error (.validation "Workout index in consistent: member key missing."), c')
    | some _ => (.error .pyTypeError, c')

/-- `PaymentRecord` frozen dataclass from payments.py; `created_at` an opaque
ISO timestamp string. -/
structure PaymentRecord where
  id : String
  member_id : String
  member_name : String
  amount : ℚ
  status : PaymentStatus
  message : String
  created_at : String
deriving DecidableEq, Repr

/-- `PaymentRecord.create` classmethod: validates its fields, mints a `pay_`
id and stamps `datetime.now()`, stripping the string fields. -/
def PaymentRecord.create (member_id member_name : String) (amount : ℚ)
    (status : PaymentStatus) (message : String) (fresh_id now : String) :
    Except Err PaymentRecord :=
  if member_id.pyStrip = "" then .error (.validation "Member id cannot be empty")
  else if member_name.pyStrip = "" then .error (.validation "Member cannot be empty.")
  else if amount < 0 then .error (.validation "Amount cannot be less than 0.")
  else if message.pyStrip = "" then .error (.validation "Message cannot be empty.")
  else .ok { id := fresh_id, member_id := member_id.pyStrip, member_name := member_name.pyStrip,
             amount := amount, status := status, message := message.pyStrip, created_at := now }

/-- `FakePaymentProcessor` from payments.py.  In the source `fail_threshold`
is a class attribute (the class has no `__init__`); the embedding carries it
as a field, set by direct attribute assignment. -/
structure FakePaymentProcessor where
  fail_threshold : Option ℚ
deriving DecidableEq, Repr

/-- `FakePaymentProcessor.charge`: when a fail threshold is set and the amount
strictly exceeds it, it RETURNS (does not raise) a FAILED record; otherwise a
SUCCESS record. -/
def FakePaymentProcessor.charge (proc : FakePaymentProcessor)
    (member_id member_name : String) (amount : ℚ) (fresh_id now : String) :
    Except Err PaymentRecord :=
  if (match proc.fail_threshold with
      | some t => decide (t < amount)
      | none => false) then
    PaymentRecord.create member_id member_name amount .FAILED
      "Simulated Failure, amount exceeds threshold" fresh_id now
  else
    PaymentRecord.create member_id member_name amount .SUCCESS
      "Payment sucessfully processed" fresh_id now

/-- `InMemoryPaymentLedger` dataclass from payments.py: an append-only record
list. -/
structure InMemoryPaymentLedger where
  records : List PaymentRecord
deriving DecidableEq, Repr

/-- `InMemoryPaymentLedger.add` (the `isinstance` check always passes in the
typed embedding): append. -/
def InMemoryPaymentLedger.add (l : InMemoryPaymentLedger) (record : PaymentRecord) :
    InMemoryPaymentLedger :=
  { records := l.records ++ [record] }

/-- `InMemoryPaymentLedger.list_all_for_member`. -/
def InMemoryPaymentLedger.list_all_for_member (l : InMemoryPaymentLedger)
    (member_id : String) : List PaymentRecord :=
  l.records.filter (fun r => r.member_id == member_id)

/-- `InMemoryPaymentLedger.total_success_for_member`: sums the amounts of this
member's SUCCESS records only. -/
def InMemoryPaymentLedger.total_success_for_member (l : InMemoryPaymentLedger)
    (member_id : String) : ℚ :=
  ((l.records.filter (fun r => r.member_id == member_id && r.status == .SUCCESS)).map
    (fun r => r.amount)).sum

/-- `InMemoryPaymentLedger.total_success_for_all`: sums the amounts of all
SUCCESS records. -/
def InMemoryPaymentLedger.total_success_for_all (l : InMemoryPaymentLedger) : ℚ :=
  ((l.records.filter (fun r => r.status == .SUCCESS)).map (fun r => r.amount)).sum

/-- `Gym` dataclass from gym.py: the aggregate root holding both halves of
each dual index, the payment collaborators and the workout catalog.  The
source types `payment_processor` as `BasePaymentProcessor`, whose only
concrete implementation is `FakePaymentProcessor`. -/
structure Gym where
  name : String
  members : PyDict Member
  trainers : PyDict Trainer
  members_by_email : PyDict String
  trainers_by_email : PyDict String
  payment_processor : FakePaymentProcessor
  payment_ledger : InMemoryPaymentLedger
  workouts : WorkoutCatalog
deriving DecidableEq, Repr

/-- `Gym(name=...)`: `__post_init__` rejects an empty or whitespace-only name;
all collections start empty and the default processor has no fail threshold. -/
def Gym.make (name : String) : Except Err Gym :=
  if name.pyStrip = "" then .error (.validation "Gym name cannot be empty")
  else .ok { name := name, members := [], trainers := [], members_by_email := [],
             trainers_by_email := [], payment_processor := { fail_threshold := none },
             payment_ledger := { records := [] }, workouts := WorkoutCatalog.empty }

/-- `Gym.add_member`: rejects a cancelled membership, a duplicate member id
and a duplicate normalized email, then inserts into both index halves. -/
def Gym.add_member (g : Gym) (member : Member) : Except Err Unit × Gym :=
  if member.membership.status = .CANCELLED then
    (.error (.validation "Cannot add a member with cancelled status."), g)
  else if dmem g.members member.id then
    (.error (.validation "This member already exists in the system."), g)
  else
    let email_key := member.email.pyLower.pyStrip
    if dmem g.members_by_email email_key then
      (.error (.validation "Member with this email already exists in the system."), g)
    else
      (.ok (), { g with members := dset g.members member.id member,
                        members_by_email := dset g.members_by_email email_key member.id })

/-- `Gym.get_member`: looks up the STRIPPED id in the primary map and turns
`KeyError` into `NotFoundError`. -/
def Gym.get_member (g : Gym) (member_id : String) : Except Err Member :=
  match dget? g.members member_id.pyStrip with
  | none => .error (.notFound s!"Member with '{member_id}' member id not found in the system.")
  | some m => .ok m

/-- `Gym.find_member_by_email`: normalized lookup returning `None` when
absent.  (`self.members[member_id]` on a hit can only fail if the indexes are
desynchronized; the embedding returns the primary entry as an `Option`.) -/
def Gym.find_member_by_email (g : Gym) (email : String) : Option Member :=
  (dget? g.members_by_email (email.pyLower.pyStrip)).bind (fun mid => dget? g.members mid)

/-- `Gym.remove_member`: `NotFoundError` when absent; pops the primary entry
FIRST, then pops the secondary entry only if it points back at this member id,
raising the fatal index-inconsistency `ValidationError` otherwise (with the
primary entry already removed). -/
def Gym.remove_member (g : Gym) (member_id : String) : Except Err Unit × Gym :=
  match dget? g.members member_id with
  | none => (.error (.notFound "This member does not exist in the system."), g)
  | some member =>
    let email_key := member.email.pyLower.pyStrip
    let g' : Gym := { g with members := dpop g.members member_id }
    if dget? g'.members_by_email email_key = some member_id then
      (.ok (), { g' with members_by_email := dpop g'.members_by_email email_key })
    else
      (.error (.validation "Inconsistent email index for member."), g')

/-- `Gym.cancel_member_membership`: get, then cancel in place. -/
def Gym.cancel_member_membership (g : Gym) (member_id : String) : Except Err Unit × Gym :=
  match g.get_member member_id with
  | .error e => (.error e, g)
  | .ok member =>
    let r := member.membership.cancel
    (r.1, { g with members := dset g.members member.id { member with membership := r.2 } })

/-- `Gym.pause_membership`: get, then pause in place (no mutation when pause
raises). -/
def Gym.pause_membership (g : Gym) (member_id : String) : Except Err Unit × Gym :=
  match g.get_member member_id with
  | .error e => (.error e, g)
  | .ok member =>
    let r := member.membership.pause
    (r.1, { g with members := dset g.members member.id { member with membership := r.2 } })

/-- `Gym.charge_member`: `NotFoundError` for an unknown member, then
`ValidationError` for an inactive membership, then the amount defaults to the
membership's monthly price, then `ValidationError` for a negative amount; the
processor's record is appended to the ledger and returned. -/
def Gym.charge_member (g : Gym) (member_id : String) (amount : Option ℚ)
    (fresh_pay_id now : String) : Except Err PaymentRecord × Gym :=
  match g.get_member member_id with
  | .error e => (.error e, g)
  | .ok member =>
    if member.is_active = false then
      (.error (.validation "Cannot charge an inactive member."), g)
    else
      let charge_amount := match amount with
        | none => member.monthly_price
        | some a => a
      if charge_amount < 0 then
        (.error (.validation "Charge amount cannot be negative."), g)
      else
        match g.payment_processor.charge member.id member.full_name charge_amount
            fresh_pay_id now with
        | .error e => (.error e, g)
        | .ok record => (.ok record, { g with payment_ledger := g.payment_ledger.add record })

/-- `Gym.total_paid_by_member`: `NotFoundError` for an unknown member, else the
ledger's success total for the (unstripped) id. -/
def Gym.total_paid_by_member (g : Gym) (member_id : String) : Except Err ℚ :=
  (g.get_member member_id).map (fun _ => g.payment_ledger.total_success_for_member member_id)

/-- `Gym.total_revenue`. -/
def Gym.total_revenue (g : Gym) : ℚ :=
  g.payment_ledger.total_success_for_all

/-- `Gym.create_workout_plan`: get the member, construct a plan for the
member's own id, and add it to the catalog. -/
def Gym.create_workout_plan (g : Gym) (member_id title : String) (fresh_plan_id now : String) :
    Except Err WorkoutPlan × Gym :=
  match g.get_member member_id with
  | .error e => (.error e, g)
  | .ok member =>
    match WorkoutPlan.make member.id title fresh_plan_id now with
    | .error e => (.error e, g)
    | .ok plan =>
      let r := g.workouts.add_plan plan
      match r.1 with
      | .error e => (.error e, { g with workouts := r.2 })
      | .ok _ => (.ok plan, { g with workouts := r.2 })

/-- `Gym.get_workout_plan`: delegates directly to `WorkoutCatalog.get_plan`
with no error translation. -/
def Gym.get_workout_plan (g : Gym) (plan_id : String) : Except Err WorkoutPlan :=
  g.workouts.get_plan plan_id

/-- `Gym.remove_workout_plan`: delegates to `WorkoutCatalog.remove_plan`. -/
def Gym.remove_workout_plan (g : Gym) (plan_id : String) : Except Err Unit × Gym :=
  let r := g.workouts.remove_plan plan_id
  (r.1, { g with workouts := r.2 })

/-- `Gym.add_trainer`: duplicate-id and duplicate-email checks, then insert
into both index halves. -/
def Gym.add_trainer (g : Gym) (trainer : Trainer) : Except Err Unit × Gym :=
  if dmem g.trainers trainer.id then
    (.error (.validation "This trainer already exists in the system."), g)
  else
    let email_key := trainer.email.pyLower.pyStrip
    if dmem g.trainers_by_email email_key then
      (.error (.validation "Trainer with this email already exists in the system."), g)
    else
      (.ok (), { g with trainers := dset g.trainers trainer.id trainer,
                        trainers_by_email := dset g.trainers_by_email email_key trainer.id })

/-- `Gym.get_trainer`: `KeyError` on the (unstripped) id becomes
`NotFoundError`. -/
def Gym.get_trainer (g : Gym) (trainer_id : String) : Except Err Trainer :=
  match dget? g.trainers trainer_id with
  | none => .error (.notFound "This trainer does not exist in the system.")
  | some t => .ok t

/-- `Gym.remove_trainer`: mirror of `Gym.remove_member` on the trainer
index pair. -/
def Gym.remove_trainer (g : Gym) (trainer_id : String) : Except Err Unit × Gym :=
  match dget? g.trainers trainer_id with
  | none => (.error (.notFound "This trainer does not exist in the system."), g)
  | some trainer =>
    let email_key := trainer.email.pyLower.pyStrip
    let g' : Gym := { g with trainers := dpop g.trainers trainer_id }
    if dget? g'.trainers_by_email email_key = some trainer_id then
      (.ok (), { g' with trainers_by_email := dpop g'.trainers_by_email email_key })
    else
      (.error (.validation "Inconsistent email index for trainer."), g')

/-- Python truthiness of a JSON value (`if not x` tests). -/
def pyTruthy : Jval → Bool
  | .null => false
  | .str s => s ≠ ""
  | .num q => q ≠ 0
  | .jbool b => b
  | .arr xs => ¬ xs.isEmpty
  | .obj fields => ¬ fields.isEmpty

/-- Python `str(x)` on a JSON value.  Encoders only ever place strings where
decoders stringify, so the non-string representations (approximations of the
CPython reprs) are never reached on round-tripped data. -/
def pyStr : Jval → String
  | .str s => s
  | .null => "None"
  | .jbool b => if b then "True" else "False"
  | .num q => toString q
  | .arr _ => "<list>"
  | .obj _ => "<dict>"

/-- Python `float(x)` on a JSON value.  Strings are not numerically parsed in
the embedding (no encoder emits numeric strings): they raise like
non-numeric strings do. -/
def pyFloat : Jval → Except Err ℚ
  | .num q => .ok q
  | .jbool b => .ok (if b then 1 else 0)
  | .str _ => .error .pyValueError
  | .null => .error .pyTypeError
  | .arr _ => .error .pyTypeError
  | .obj _ => .error .pyTypeError

/-- Python `int(x)` on a JSON value; `int()` truncates a float toward zero. -/
def pyInt : Jval → Except Err ℤ
  | .num q => .ok (q.num.tdiv (q.den : ℤ))
  | .jbool b => .ok (if b then 1 else 0)
  | .str _ => .error .pyValueError
  | .null => .error .pyTypeError
  | .arr _ => .error .pyTypeError
  | .obj _ => .error .pyTypeError

/-- `price_policy_to_dict` from storage.py. -/
def price_policy_to_dict : PricePolicy → Jval
  | .NoDiscount => .obj [("type", .str "no_discount")]
  | .PercentOff discount => .obj [("type", .str "percent_off"), ("discount", .num discount)]
  | .FixedPrice price => .obj [("type", .str "fixed_price"), ("price", .num price)]

/-- `price_policy_from_dict` from storage.py.  A non-dict argument hits
`data.get` and raises `AttributeError`; a known discriminant with a missing
payload field hits `data["discount"]` / `data["price"]` and raises `KeyError`;
the payload is re-validated through the `PercentOff`/`FixedPrice`
constructors. -/
def price_policy_from_dict : Jval → Except Err PricePolicy
  | .obj fields =>
    match dget? fields "type" with
    | some (.str "no_discount") => .ok .NoDiscount
    | some (.str "percent_off") =>
      match dget? fields "discount" with
      | none => .error .pyKeyError
      | some v => (pyFloat v).bind PercentOff.mk?
    | some (.str "fixed_price") =>
      match dget? fields "price" with
      | none => .error .pyKeyError
      | some v => (pyFloat v).bind FixedPrice.mk?
    | some v => .error (.validation s!"Unknown policy type: {pyStr v}")
    | none => .error (.validation "Unknown policy type: None")
  | _ => .error .pyAttributeError

/-- `membership_to_dict` from storage.py, embedded exactly as written: the
source dispatches with `if isinstance(membership, BaseMembership)` FIRST, and
both `BasicMembership` and `PremiumMembership` are instances of
`BaseMembership`, so that first branch is taken for every membership object
and the discriminant is always `"basic"` — the
`elif isinstance(membership, PremiumMembership)` branch is unreachable.  The
membership's own id is not serialized. -/
def membership_to_dict (m : BaseMembership) : Jval :=
  .obj [("type", .str "basic"),
        ("status", .str m.status.value),
        ("price_policy", price_policy_to_dict m.price_policy)]

/-- `membership_from_dict` from storage.py: decodes the policy first, then
dispatches on the discriminant (minting a fresh `ms_` id — the membership id
is never persisted), then re-assigns the status via
`MembershipStatus(status_str)`, which raises `ValueError` for anything that is
not a valid status value string.  A non-dict argument raises
`AttributeError`. -/
def membership_from_dict (data : Jval) (ctr : ℕ) : Except Err BaseMembership × ℕ :=
  match data with
  | .obj fields =>
    match price_policy_from_dict ((dget? fields "price_policy").getD .null) with
    | .error e => (.error e, ctr)
    | .ok policy =>
      let fresh := "ms_" ++ toString ctr
      let made : Except Err BaseMembership :=
        match dget? fields "type" with
        | some (.str "basic") => .ok (BasicMembership.make fresh policy)
        | some (.str "premium") => .ok (PremiumMembership.make fresh policy)
        | some v => .error (.validation s!"Unknown membership type: {pyStr v}")
        | none => .error (.validation "Unknown membership type: None")
      match made with
      | .error e => (.error e, ctr)
      | .ok m =>
        match dget? fields "status" with
        | some (.str s) =>
          match MembershipStatus.ofValue? s with
          | some st => (.ok { m with status := st }, ctr + 1)
          | none => (.error .pyValueError, ctr + 1)
        | _ => (.error .pyValueError, ctr + 1)
  | _ => (.error .pyAttributeError, ctr)

/-- `member_to_dict` from storage.py.  `join_date` IS serialized (as its ISO
string). -/
def member_to_dict (m : Member) : Jval :=
  .obj [("id", .str m.id),
        ("full_name", .str m.full_name),
        ("email", .str m.email),
        ("join_date", .str m.join_date),
        ("membership", membership_to_dict m.membership)]

/-- `member_from_dict` from storage.py.  Notable source behaviours kept by the
embedding: the email presence check uses `and` instead of `or`, so a missing
email slips past it and is instead rejected inside the `Member` constructor;
`data["membership"]` raises `KeyError` when absent; the stored id override
applies only to a truthy stored id; and `join_date` is NEVER read back — the
decoded member's join date is `date.today()` (the `today` parameter), not the
encoded one. -/
def member_from_dict (data : Jval) (ctr : ℕ) (today : String) : Except Err Member × ℕ :=
  match data with
  | .obj fields =>
    let full_name := dget? fields "full_name"
    let email := dget? fields "email"
    if ¬ (pyTruthy (full_name.getD .null)) ∨ (pyStr (full_name.getD .null)).pyStrip = "" then
      (.error (.validation "Member missing full name."), ctr)
    else if ¬ (pyTruthy (email.getD .null)) ∧ (pyStr (email.getD .null)).pyStrip = "" then
      (.error (.validation "Trainer missing email."), ctr)
    else
      match dget? fields "membership" with
      | none => (.error .pyKeyError, ctr)
      | some mdata =>
        match membership_from_dict mdata ctr with
        | (.error e, ctr') => (.error e, ctr')
        | (.ok membership, ctr') =>
          let made : Except Err Member :=
            match full_name with
            | some (.str fn) =>
              match email with
              | some (.str em) =>
                Member.make ("mem_" ++ toString ctr') fn em membership today
              | some .null | none => .error (.validation "Email must be provided.")
              | some v =>
                if pyTruthy v then .error .pyAttributeError
                else .error (.validation "Email must be provided.")
            | _ => .error .pyAttributeError
          match made with
          | .error e => (.error e, ctr' + 1)
          | .ok member =>
            match dget? fields "id" with
            | some v =>
              if pyTruthy v then (.ok { member with id := pyStr v }, ctr' + 1)
              else (.ok member, ctr' + 1)
            | none => (.ok member, ctr' + 1)
  | _ => (.error (.validation "Member data must be a dictionary."), ctr)

/-- `trainer_to_dict` from storage.py. -/
def trainer_to_dict (t : Trainer) : Jval :=
  .obj [("id", .str t.id),
        ("full_name", .str t.full_name),
        ("email", .str t.email),
        ("specialty", match t.specialty with
          | none => .null
          | some s => .str s)]

/-- `trainer_from_dict` from storage.py: presence checks for name and email
(both correctly with `or`), reconstruction through the `Trainer` constructor,
then the stored-id override (the source assigns the raw stored value without
`str()`; round-tripped data always stores a string there). -/
def trainer_from_dict (data : Jval) (ctr : ℕ) : Except Err Trainer × ℕ :=
  match data with
  | .obj fields =>
    let full_name := dget? fields "full_name"
    let email := dget? fields "email"
    if ¬ (pyTruthy (full_name.getD .null)) ∨ (pyStr (full_name.getD .null)).pyStrip = "" then
      (.error (.validation "Trainer full name missing."), ctr)
    else if ¬ (pyTruthy (email.getD .null)) ∨ (pyStr (email.getD .null)).pyStrip = "" then
      (.error (.validation "Trainer email missing."), ctr)
    else
      let made : Except Err Trainer :=
        match full_name, email with
        | some (.str fn), some (.str em) =>
          match dget? fields "specialty" with
          | none => Trainer.make ("trn_" ++ toString ctr) fn em none
          | some .null => Trainer.make ("trn_" ++ toString ctr) fn em none
          | some (.str s) => Trainer.make ("trn_" ++ toString ctr) fn em (some s)
          | some _ => .error .pyAttributeError
        | _, _ => .error .pyAttributeError
      match made with
      | .error e => (.error e, ctr + 1)
      | .ok trainer =>
        match dget? fields "id" with
        | some v =>
          if pyTruthy v then (.ok { trainer with id := pyStr v }, ctr + 1)
          else (.ok trainer, ctr + 1)
        | none => (.ok trainer, ctr + 1)
  | _ => (.error (.validation "Trainer data must be a dictionary."), ctr)

/-- `exercise_to_dict` from storage.py. -/
def exercise_to_dict (e : Exercise) : Jval :=
  .obj [("name", .str e.name),
        ("sets", .num e.sets),
        ("reps", .num e.reps),
        ("load", match e.load with
          | none => .null
          | some q => .num q),
        ("notes", match e.notes with
          | none => .null
          | some s => .str s)]

/-- `exercise_from_dict` from storage.py: name presence check, then
reconstruction through the validating `Exercise` constructor with
`int(data.get("sets", 0))`-style conversions (a missing count defaults to 0
and is then rejected by the constructor). -/
def exercise_from_dict (data : Jval) : Except Err Exercise :=
  match data with
  | .obj fields =>
    let name := dget? fields "name"
    if ¬ (pyTruthy (name.getD .null)) ∨ (pyStr (name.getD .null)).pyStrip = "" then
      .error (.validation "Exercise name missing.")
    else
      match pyInt ((dget? fields "sets").getD (.num 0)) with
      | .error e => .error e
      | .ok sets =>
        match pyInt ((dget? fields "reps").getD (.num 0)) with
        | .error e => .error e
        | .ok reps =>
          let loadv : Except Err (Option ℚ) :=
            match dget? fields "load" with
            | none => .ok none
            | some .null => .ok none
            | some v => (pyFloat v).map some
          match loadv with
          | .error e => .error e
          | .ok load =>
            let notes : Option String :=
              match dget? fields "notes" with
              | none => none
              | some .null => none
              | some v => some (pyStr v)
            Exercise.make (pyStr (name.getD .null)) sets reps load notes
  | _ => .error (.validation "Exercise data must be a dictionary.")

/-- `workout_plan_to_dict` from storage.py. -/
def workout_plan_to_dict (p : WorkoutPlan) : Jval :=
  .obj [("id", .str p.id),
        ("member_id", .str p.member_id),
        ("title", .str p.title),
        ("created_at", .str p.created_at),
        ("exercises", .arr (p.exercises.map exercise_to_dict))]

/-- `workout_plan_from_dict` from storage.py.  Notable source behaviours kept:
`stored_id = str(data.get("id"))` stringifies BEFORE the truthiness test, so a
missing id yields the truthy string `"None"` and the plan id becomes
`"None"`; `created_at` is restored through
`datetime.fromisoformat(str(...))` (modelled as the identity on the ISO
string); exercises are replayed through `add_exercise`. -/
def workout_plan_from_dict (data : Jval) (ctr : ℕ) (now : String) :
    Except Err WorkoutPlan × ℕ :=
  match data with
  | .obj fields =>
    let member_id := dget? fields "member_id"
    let title := dget? fields "title"
    if ¬ (pyTruthy (member_id.getD .null)) ∨ (pyStr (member_id.getD .null)).pyStrip = "" then
      (.error (.validation "WorkoutPlan missing member_id."), ctr)
    else if ¬ (pyTruthy (title.getD .null)) ∨ (pyStr (title.getD .null)).pyStrip = "" then
      (.error (.validation "WorkoutPlan missing title."), ctr)
    else
      let made : Except Err WorkoutPlan :=
        match member_id, title with
        | some (.str mid), some (.str t) =>
          WorkoutPlan.make mid t ("wkp_" ++ toString ctr) now
        | _, _ => .error .pyAttributeError
      match made with
      | .error e => (.error e, ctr + 1)
      | .ok plan =>
        let stored_id := pyStr ((dget? fields "id").getD .null)
        let plan := if stored_id ≠ "" then { plan with id := stored_id } else plan
        let plan :=
          match dget? fields "created_at" with
          | some v => if pyTruthy v then { plan with created_at := pyStr v } else plan
          | none => plan
        match dget? fields "exercises" with
        | some (.arr exs) =>
          let folded : Except Err WorkoutPlan := exs.foldl
            (fun acc ex => acc.bind (fun pl => (exercise_from_dict ex).map pl.add_exercise))
            (.ok plan)
          (folded, ctr + 1)
        | none => (.ok plan, ctr + 1)
        | some _ => (.error (.validation "WorkoutPlan.exercises must be a list."), ctr + 1)
  | _ => (.error (.validation "Workout plan data must be a dictionary."), ctr)

/-- `workout_catalog_to_dict` from storage.py. -/
def workout_catalog_to_dict (c : WorkoutCatalog) : Jval :=
  .obj [("plans", .obj (c.plans.map (fun p => (p.1, workout_plan_to_dict p.2))))]

/-- `workout_catalog_from_dict` from storage.py: decodes each plan in stored
order and re-derives `plans_by_member` (the persisted dict keys are ignored in
favour of each decoded plan's own id). -/
def workout_catalog_from_dict (data : Jval) (ctr : ℕ) (now : String) :
    Except Err WorkoutCatalog × ℕ :=
  match data with
  | .obj fields =>
    match (dget? fields "plans").getD (.obj []) with
    | .obj plans_data =>
      plans_data.foldl
        (fun acc entry =>
          match acc with
          | (.error e, c) => (.error e, c)
          | (.ok cat, c) =>
            match workout_plan_from_dict entry.2 c now with
            | (.error e, c') => (.error e, c')
            | (.ok plan, c') =>
              (.ok { cat with plans := dset cat.plans plan.id plan,
                              plans_by_member := dappend cat.plans_by_member plan.member_id plan.id },
               c'))
        (.ok WorkoutCatalog.empty, ctr)
    | _ => (.error (.validation "WorkoutCatalog.plans must be a dictionary."), ctr)
  | _ => (.error (.validation "WorkoutCatalog data must be a Dictionary."), ctr)

/-- `payment_record_to_dict` from storage.py. -/
def payment_record_to_dict (r : PaymentRecord) : Jval :=
  .obj [("id", .str r.id),
        ("member_id", .str r.member_id),
        ("member_name", .str r.member_name),
        ("amount", .num r.amount),
        ("status", .str r.status.value),
        ("message", .str r.message),
        ("created_at", .str r.created_at)]

/-- `payment_record_from_dict` from storage.py: field-by-field validation
(`float(amount)` failures are caught and re-raised as `ValidationError`),
reconstruction through `PaymentRecord.create`, then stored-id and
`created_at` overrides applied through `object.__setattr__` on the nominally
frozen record. -/
def payment_record_from_dict (data : Jval) (ctr : ℕ) (now : String) :
    Except Err PaymentRecord × ℕ :=
  match data with
  | .obj fields =>
    let member_id := dget? fields "member_id"
    if ¬ (pyTruthy (member_id.getD .null)) ∨ (pyStr (member_id.getD .null)).pyStrip = "" then
      (.error (.validation "PaymentRecord missing member id."), ctr)
    else
      let member_name := dget? fields "member_name"
      if ¬ (pyTruthy (member_name.getD .null)) ∨ (pyStr (member_name.getD .null)).pyStrip = "" then
        (.error (.validation "PaymentRecord missing member_name."), ctr)
      else
        match pyFloat ((dget? fields "amount").getD .null) with
        | .error _ => (.error (.validation "PaymentRecord amount must be a positive number."), ctr)
        | .ok amount =>
          if amount < 0 then
            (.error (.validation "PaymentRecord amount must be greater than 0."), ctr)
          else
            let status_str := dget? fields "status"
            if ¬ (pyTruthy (status_str.getD .null)) ∨ (pyStr (status_str.getD .null)).pyStrip = "" then
              (.error (.validation "PaymentRecord missing payment status"), ctr)
            else
              match PaymentStatus.ofValue? (pyStr (status_str.getD .null)) with
              | none => (.error .pyValueError, ctr)
              | some status =>
                let message := dget? fields "message"
                if ¬ (pyTruthy (message.getD .null)) ∨ (pyStr (message.getD .null)).pyStrip = "" then
                  (.error (.validation "PaymentRecord missing message."), ctr)
                else
                  match PaymentRecord.create
                      ((pyStr (member_id.getD .null)).pyStrip)
                      ((pyStr (member_name.getD .null)).pyStrip)
                      amount status ((pyStr (message.getD .null)).pyStrip)
                      ("pay_" ++ toString ctr) now with
                  | .error e => (.error e, ctr + 1)
                  | .ok record =>
                    let record :=
                      match dget? fields "id" with
                      | some v => if pyTruthy v then { record with id := pyStr v } else record
                      | none => record
                    let record :=
                      match dget? fields "created_at" with
                      | some v =>
                        if pyTruthy v then { record with created_at := pyStr v } else record
                      | none => record
                    (.ok record, ctr + 1)
  | _ => (.error (.validation "PaymentRecord must be a Dictionary."), ctr)

/-- `ledger_to_dict` from storage.py. -/
def ledger_to_dict (l : InMemoryPaymentLedger) : Jval :=
  .obj [("records", .arr (l.records.map payment_record_to_dict))]

/-- `ledger_from_dict` from storage.py: replays each stored record through
`InMemoryPaymentLedger.add`. -/
def ledger_from_dict (data : Jval) (ctr : ℕ) (now : String) :
    Except Err InMemoryPaymentLedger × ℕ :=
  match data with
  | .obj fields =>
    match (dget? fields "records").getD (.arr []) with
    | .arr records_data =>
      records_data.foldl
        (fun acc rdata =>
          match acc with
          | (.error e, c) => (.error e, c)
          | (.ok ledger, c) =>
            match payment_record_from_dict rdata c now with
            | (.error e, c') => (.error e, c')
            | (.ok record, c') => (.ok (ledger.add record), c'))
        (.ok { records := [] }, ctr)
    | _ => (.error (.validation "Ledger.records must be a list."), ctr)
  | _ => (.error (.validation "InMemoryPaymentLedger data must be a Dictionary."), ctr)

/-- `gym_to_dict` from storage.py: the whole-aggregate encoder. -/
def gym_to_dict (g : Gym) : Jval :=
  .obj [("name", .str g.name),
        ("members", .obj (g.members.map (fun p => (p.1, member_to_dict p.2)))),
        ("trainers", .obj (g.trainers.map (fun p => (p.1, trainer_to_dict p.2)))),
        ("payment_processor", .obj [("type", .str "fake"),
          ("fail_threshold", match g.payment_processor.fail_threshold with
            | none => .null
            | some t => .num t)]),
        ("workouts", workout_catalog_to_dict g.workouts),
        ("payment_ledger", ledger_to_dict g.payment_ledger)]

/-- `gym_from_dict` from storage.py, embedded exactly as written.  It rebuilds
the member/trainer maps while re-deriving both email indexes, rebuilds the
catalog and ledger, and finally executes
`FakePaymentProcessor(fail_threshold=pp_data.get("fail_threshold"))`.
`FakePaymentProcessor` is a plain class with no `__init__` (its
`fail_threshold` is only a class attribute), so that call raises
`TypeError: FakePaymentProcessor() takes no arguments` on EVERY input that
reaches it — the `"fake"` branch (also taken when the processor entry is
absent, via the `"fake"` default) can never complete, and `gym_from_dict`
never returns a gym. -/
def gym_from_dict (data : Jval) (ctr : ℕ) (today now : String) : Except Err Gym × ℕ :=
  match data with
  | .obj fields =>
    let name := dget? fields "name"
    if ¬ (pyTruthy (name.getD .null)) ∨ (pyStr (name.getD .null)).pyStrip = "" then
      (.error (.validation "Gym missing name."), ctr)
    else
      match name with
      | some (.str nm) =>
        match Gym.make nm with
        | .error e => (.error e, ctr)
        | .ok gym0 =>
          match (dget? fields "members").getD .null with
          | .obj members_data =>
            let membersFold : Except Err Gym × ℕ := members_data.foldl
              (fun acc entry =>
                match acc with
                | (.error e, c) => (.error e, c)
                | (.ok gym, c) =>
                  match member_from_dict entry.2 c today with
                  | (.error e, c') => (.error e, c')
                  | (.ok member, c') =>
                    (.ok { gym with
                        members := dset gym.members member.id member,
                        members_by_email :=
                          dset gym.members_by_email (member.email.pyLower.pyStrip) member.id },
                     c'))
              (.ok gym0, ctr)
            match membersFold with
            | (.error e, c) => (.error e, c)
            | (.ok gym1, c1) =>
              match (dget? fields "trainers").getD .null with
              | .obj trainers_data =>
                let trainersFold : Except Err Gym × ℕ := trainers_data.foldl
                  (fun acc entry =>
                    match acc with
                    | (.error e, c) => (.error e, c)
                    | (.ok gym, c) =>
                      match trainer_from_dict entry.2 c with
                      | (.error e, c') => (.error e, c')
                      | (.ok trainer, c') =>
                        (.ok { gym with
                            trainers := dset gym.trainers trainer.id trainer,
                            trainers_by_email :=
                              dset gym.trainers_by_email (trainer.email.pyLower.pyStrip) trainer.id },
                         c'))
                  (.ok gym1, c1)
                match trainersFold with
                | (.error e, c) => (.error e, c)
                | (.ok gym2, c2) =>
                  match workout_catalog_from_dict ((dget? fields "workouts").getD (.obj [])) c2 now with
                  | (.error e, c') => (.error e, c')
                  | (.ok cat, c3) =>
                    match ledger_from_dict ((dget? fields "payment_ledger").getD (.obj [])) c3 now with
                    | (.error e, c') => (.error e, c')
                    | (.ok ledger, c4) =>
                      let _gym3 : Gym := { gym2 with workouts := cat, payment_ledger := ledger }
                      match (dget? fields "payment_processor").getD (.obj []) with
                      | .obj pp_fields =>
                        match (dget? pp_fields "type").getD (.str "fake") with
                        | .str "fake" => (.error .pyTypeError, c4)
                        | v => (.error (.validation s!"Unknown payment processor {pyStr v}"), c4)
                      | _ => (.error .pyAttributeError, c4)
              | _ => (.error (.validation "Trainers data must be a dictionary."), c1)
          | _ => (.error (.validation "Members data must be a dictionary."), ctr)
      | _ => (.error .pyAttributeError, ctr)
  | _ => (.error (.validation "Gym data must be a dictionary."), ctr)

/-- `CURRENT_SCHEMA_VERSION` from storage.py. -/
def CURRENT_SCHEMA_VERSION : ℚ := 1

/-- A stored file either json-parses to a structured value or fails to parse
(`json.load` would raise `JSONDecodeError` on it). -/
abbrev FileDoc := Except Unit Jval

/-- The file system, restricted to file contents: a map from paths to the
parse outcome of the bytes stored there. -/
def FS : Type := String → Option FileDoc

/-- The externally visible file-system steps `save_gym` performs, in program
order. -/
inductive FsOp
  | mkdirs
  | write (p : String) (doc : FileDoc)
  | rename (src dst : String)

/-- Effect of one step on the file system.
`path.parent.mkdir(parents=True, exist_ok=True)` creates directories only and
never changes any file's contents, so it is the identity on the file map;
`Path.replace` atomically renames the source over the destination. -/
def FsOp.apply (fs : FS) : FsOp → FS
  | .mkdirs => fs
  | .write p doc => fun q => if q = p then some doc else fs q
  | .rename src dst => fun q => if q = dst then fs src else if q = src then none else fs q

/-- Apply a list of steps in order. -/
def applyOps (fs : FS) (ops : List FsOp) : FS :=
  ops.foldl FsOp.apply fs

/-- `path.with_suffix(path.suffix + ".tmp")`: replacing the final suffix `s`
with `s + ".tmp"` appends `".tmp"` to the path. -/
def tmp_path (p : String) : String :=
  p ++ ".tmp"

/-- The versioned snapshot document `save_gym` serializes. -/
def save_gym_payload (g : Gym) : Jval :=
  .obj [("schema_version", .num CURRENT_SCHEMA_VERSION), ("gym", gym_to_dict g)]

/-- `save_gym` from storage.py as its ordered step list: create parent
directories, write the full payload to the temporary sibling file, then rename
the temporary file over the target path.  (The `isinstance(gym, Gym)` guard
always passes in the typed embedding.) -/
def save_gym_steps (g : Gym) (p : String) : List FsOp :=
  [.mkdirs, .write (tmp_path p) (.ok (save_gym_payload g)), .rename (tmp_path p) p]

/-- `save_gym`: the cumulative effect of all its steps on the file system. -/
def save_gym (fs : FS) (p : String) (g : Gym) : FS :=
  applyOps fs (save_gym_steps g p)

/-- Python `payload.get("schema_version") != CURRENT_SCHEMA_VERSION` with the
int `1` on the right: numbers compare numerically and `True == 1` in Python;
every other json shape (and a missing key) is unequal. -/
def schemaVersionIsCurrent : Option Jval → Bool
  | some (.num q) => q == CURRENT_SCHEMA_VERSION
  | some (.jbool b) => b
  | _ => false

/-- `load_gym` from storage.py: a missing file, a non-object root, a wrong
schema version and a missing/non-object `"gym"` entry each raise
`ValidationError`; a file whose contents do not json-parse raises
`json.JSONDecodeError` out of `json.load` — that exception is NOT caught and
is not a `ValidationError`.  On a well-formed envelope it defers to
`gym_from_dict`. -/
def load_gym (fs : FS) (p : String) (ctr : ℕ) (today now : String) : Except Err Gym :=
  match fs p with
  | none => .error (.validation s!"No save file found at {p}")
  | some (.error _) => .error .jsonDecodeError
  | some (.ok payload) =>
    match payload with
    | .obj fields =>
      if ¬ schemaVersionIsCurrent (dget? fields "schema_version") then
        .error (.validation "Unsupported schema version: expected 1.")
      else
        match (dget? fields "gym").getD .null with
        | .obj gym_fields => (gym_from_dict (.obj gym_fields) ctr today now).1
        | _ => .error (.validation "Invalid save file format: missing 'gym' object.")
    | _ => .error (.validation "Unexpected save file format: expected json instance at root.")

/-- The two-sided consistency condition of one dual-index pair: every id in
the secondary map resolves in the primary map to an entity whose own
normalized key equals that secondary key, and every primary entity's key
appears in the secondary map. -/
def dualIndexConsistentB (primary : PyDict α) (secondary : PyDict String)
    (key : α → String) : Bool :=
  secondary.all (fun p =>
    match dget? primary p.2 with
    | some e => key e == p.1
    | none => false) &&
  primary.all (fun q => dmem secondary (key q.2))

/-- Consistency of the one-to-many workout index: every plan id listed under a
member resolves in the primary map to a plan owned by that member, and every
plan's owning member id appears in the secondary map. -/
def plansIndexConsistentB (c : WorkoutCatalog) : Bool :=
  c.plans_by_member.all (fun p =>
    p.2.all (fun pid =>
      match dget? c.plans pid with
      | some plan => plan.member_id == p.1
      | none => false)) &&
  c.plans.all (fun q => dmem c.plans_by_member q.2.member_id)

/-- The full invariant claimed for the aggregate: all three dual-index
structures are consistent. -/
def indexConsistentB (g : Gym) : Bool :=
  dualIndexConsistentB g.members g.members_by_email (fun m => m.email.pyLower.pyStrip) &&
  dualIndexConsistentB g.trainers g.trainers_by_email (fun t => t.email.pyLower.pyStrip) &&
  plansIndexConsistentB g.workouts

/-- Fixture: an ACTIVE basic membership with no discount. -/
def msActiveBasic : BaseMembership :=
  BasicMembership.make "ms_a" .NoDiscount

/-- Fixture: a cancelled basic membership. -/
def msCancelled : BaseMembership :=
  { msActiveBasic with status := .CANCELLED }

/-- Fixture: a valid member with an ACTIVE membership. -/
def memberAna : Member :=
  { id := "mem_1", full_name := "Ana Pop", email := "a@x.com",
    membership := msActiveBasic, join_date := "2024-01-01" }

/-- Fixture: the empty gym named "X". -/
def gymX : Gym :=
  { name := "X", members := [], trainers := [], members_by_email := [],
    trainers_by_email := [], payment_processor := { fail_threshold := none },
    payment_ledger := { records := [] }, workouts := WorkoutCatalog.empty }

/-- Fixture: the gym containing exactly `memberAna`, both index halves in
sync. -/
def gymAna : Gym :=
  { gymX with members := [("mem_1", memberAna)],
              members_by_email := [("a@x.com", "mem_1")] }

/-- Fixture: an empty file system. -/
def fsEmpty : FS :=
  fun _ => none

/-- Claim C1: the spec says `save_gym` then `load_gym` on an empty gym named
"X" succeeds and returns an equal empty gym.  The code disagrees: the load
path always ends in `FakePaymentProcessor(fail_threshold=...)`, and
`FakePaymentProcessor` is a plain class with no `__init__`, so `load_gym`
raises `TypeError: FakePaymentProcessor() takes no arguments` instead of
returning a gym.  This theorem evaluates the code at the failing input:
constructing the empty gym "X", saving it, then loading the very file just
written raises `TypeError`. -/
theorem c1_save_then_load_empty_gym_raises_typeerror :
    Gym.make "X" = .ok gymX
  ∧ gymX.members = [] ∧ gymX.trainers = [] ∧ gymX.workouts.plans = []
  ∧ gymX.payment_ledger.records = []
  ∧ load_gym (save_gym fsEmpty "data/gym.json" gymX) "data/gym.json" 0
      "2025-01-01" "2025-01-01T00:00:00" = .error .pyTypeError := by
  decide

/-- Claim C2: the spec's round-trip law `decode(encode(x)) == x` fails on the
code in two ways.  (1) `membership_to_dict` tests
`isinstance(membership, BaseMembership)` first, which matches every
membership, so a `PremiumMembership` is encoded with discriminant "basic" and
decodes to a `BasicMembership` — the tier is not preserved.  (2)
`member_from_dict` never reads the encoded `join_date`; the decoded member's
join date is `date.today()` (the decode-time `today` parameter), not the
encoded date.  This theorem evaluates both divergences on concrete inputs. -/
theorem c2_roundtrip_fails_premium_tier_and_join_date :
    (PremiumMembership.make "ms_p" .NoDiscount).tier = .premium
  ∧ Except.map BaseMembership.tier
      (membership_from_dict (membership_to_dict (PremiumMembership.make "ms_p" .NoDiscount)) 0).1
      = .ok .basic
  ∧ memberAna.join_date = "2024-01-01"
  ∧ Except.map Member.join_date
      (member_from_dict (member_to_dict memberAna) 0 "2025-06-30").1
      = .ok "2025-06-30" := by
  decide

/-- Claim C3: the spec claims the three dual-index structures stay consistent
after every sequence of aggregate mutations, including failing calls.  The
code violates this: `WorkoutCatalog.remove_plan` pops the plan from the
primary map and then reads `self.plans.get(member_id_key)` — the PRIMARY map,
where the member id is never a key — instead of `plans_by_member`, so it
raises the "index inconsistent" `ValidationError` and leaves the plan id
stranded in `plans_by_member`.  This theorem evaluates the failing sequence
add_member; create_workout_plan; remove_workout_plan from the empty gym: the
state is consistent before the removal and inconsistent after it. -/
theorem c3_invariant_broken_by_remove_workout_plan :
    (gymX.add_member memberAna).1 = .ok ()
  ∧ (((gymX.add_member memberAna).2.create_workout_plan "mem_1" "Push Day" "wkp_1"
        "2025-01-02T10:00:00").1).isOk = true
  ∧ indexConsistentB ((gymX.add_member memberAna).2.create_workout_plan "mem_1"
        "Push Day" "wkp_1" "2025-01-02T10:00:00").2 = true
  ∧ ((((gymX.add_member memberAna).2.create_workout_plan "mem_1" "Push Day" "wkp_1"
        "2025-01-02T10:00:00").2).remove_workout_plan "wkp_1").1
      = .error (.validation "Workout index in consistent: member key missing.")
  ∧ indexConsistentB ((((gymX.add_member memberAna).2.create_workout_plan "mem_1"
        "Push Day" "wkp_1" "2025-01-02T10:00:00").2).remove_workout_plan "wkp_1").2
      = false := by
  decide

/-- Fixture: a workout plan owned by "mem_1". -/
def planPush : WorkoutPlan :=
  { member_id := "mem_1", title := "Push Day", id := "wkp_1",
    created_at := "2025-01-02T10:00:00", exercises := [] }

/-- Fixture: a catalog holding exactly `planPush`, with both halves of the
one-to-many index in sync. -/
def catalogOne : WorkoutCatalog :=
  { plans := [("wkp_1", planPush)], plans_by_member := [("mem_1", ["wkp_1"])] }

/-- Claim C4: the spec says that on a catalog satisfying the dual-index
invariant, `remove_plan(p)` returns without error, removes `p` from the
primary map and deletes `p` from `plans_by_member[m]`, raising the fatal
error only when the owner key or list entry was genuinely missing.  The code
disagrees: on a perfectly consistent catalog it raises the fatal
`ValidationError` (it consults the wrong map) and never deletes the id from
the owner's list.  This theorem evaluates the code on a consistent one-plan
catalog. -/
theorem c4_remove_plan_raises_on_consistent_catalog :
    plansIndexConsistentB catalogOne = true
  ∧ (catalogOne.remove_plan "wkp_1").1
      = .error (.validation "Workout index in consistent: member key missing.")
  ∧ dget? (catalogOne.remove_plan "wkp_1").2.plans "wkp_1" = none
  ∧ dget? (catalogOne.remove_plan "wkp_1").2.plans_by_member "mem_1" = some ["wkp_1"] := by
  decide

/-- Counterexample to claim C5: looking up an absent workout-plan id raises
`ValidationError`, not `NotFoundError` as the claim states (the member and
trainer lookups do raise `NotFoundError`, see the amended theorem). -/
theorem c5_counterexample_get_plan_raises_validation :
    WorkoutCatalog.empty.get_plan "wkp_x"
      = .error (.validation "Plan with 'wkp_x' does not exist in the system.")
  ∧ isNotFoundError (WorkoutCatalog.empty.get_plan "wkp_x") = false := by
  decide

/-- Claim C5 (amended): looking up an id that is not present fails with
`NotFoundError` for `Gym.get_member` and `Gym.get_trainer`; workout-plan
lookup via `WorkoutCatalog.get_plan` / `Gym.get_workout_plan`, however, fails
with `ValidationError`, not `NotFoundError`. -/
theorem c5_amended_lookup_errors (g : Gym) (member_id trainer_id plan_id : String)
    (hm : dget? g.members member_id.pyStrip = none)
    (ht : dget? g.trainers trainer_id = none)
    (hp : dget? g.workouts.plans plan_id = none) :
    isNotFoundError (g.get_member member_id) = true
  ∧ isNotFoundError (g.get_trainer trainer_id) = true
  ∧ isValidationError (g.get_workout_plan plan_id) = true
  ∧ isNotFoundError (g.get_workout_plan plan_id) = false := by
  refine ⟨?_, ?_, ?_, ?_⟩ <;>
    simp [Gym.get_member, Gym.get_trainer, Gym.get_workout_plan, WorkoutCatalog.get_plan,
      hm, ht, hp, isNotFoundError, isValidationError]

/-- Witness for the amended claim C5, at the empty gym and absent ids. -/
theorem c5_amended_witness :
    dget? gymX.members ("m_x" : String).pyStrip = none
  ∧ dget? gymX.trainers "t_x" = none
  ∧ dget? gymX.workouts.plans "p_x" = none
  ∧ (isNotFoundError (gymX.get_member "m_x") = true
     ∧ isNotFoundError (gymX.get_trainer "t_x") = true
     ∧ isValidationError (gymX.get_workout_plan "p_x") = true
     ∧ isNotFoundError (gymX.get_workout_plan "p_x") = false) :=
  ⟨by decide, by decide, by decide,
   c5_amended_lookup_errors gymX "m_x" "t_x" "p_x" (by decide) (by decide) (by decide)⟩

/-- Fixture: a file system holding one file whose bytes do not json-parse. -/
def fsBadJson : FS :=
  fun p => if p = "data/gym.json" then some (.error ()) else none

/-- Counterexample to claim C6: loading a file whose contents are not valid
JSON raises `json.JSONDecodeError` out of `json.load` — not the
`ValidationError` the claim states for that case. -/
theorem c6_counterexample_malformed_json_not_validation :
    load_gym fsBadJson "data/gym.json" 0 "2025-01-01" "2025-01-01T00:00:00"
      = .error .jsonDecodeError
  ∧ isValidationError
      (load_gym fsBadJson "data/gym.json" 0 "2025-01-01" "2025-01-01T00:00:00") = false := by
  decide

/-- Claim C6 (amended): `load_gym` fails with `ValidationError` when the file
does not exist, when the document root is not an object, and when the
schema version is not the supported version 1; but when the file's contents
are not valid JSON it propagates the JSON parser's own `JSONDecodeError`
instead of a `ValidationError`.  In all four cases no gym is returned. -/
theorem c6_amended_load_error_cases (fs : FS) (p : String) (ctr : ℕ) (today now : String) :
    (fs p = none →
      load_gym fs p ctr today now = .error (.validation s!"No save file found at {p}"))
  ∧ (fs p = some (.error ()) →
      load_gym fs p ctr today now = .error .jsonDecodeError)
  ∧ (∀ doc, fs p = some (.ok doc) → doc.isObj = false →
      load_gym fs p ctr today now
        = .error (.validation "Unexpected save file format: expected json instance at root."))
  ∧ (∀ fields, fs p = some (.ok (.obj fields)) →
      schemaVersionIsCurrent (dget? fields "schema_version") = false →
      load_gym fs p ctr today now
        = .error (.validation "Unsupported schema version: expected 1.")) := by
  refine ⟨?_, ?_, ?_, ?_⟩
  · intro h
    simp [load_gym, h]
  · intro h
    simp [load_gym, h]
  · intro doc h hobj
    cases doc <;> simp_all [load_gym, Jval.isObj]
  · intro fields h hv
    simp [load_gym, h, hv]

/-- Witness for the amended claim C6, one concrete file system per failure
mode. -/
theorem c6_amended_witness :
    load_gym (fun _ => none) "p.json" 0 "d" "t"
      = .error (.validation "No save file found at p.json")
  ∧ load_gym (fun _ => some (.error ())) "p.json" 0 "d" "t" = .error .jsonDecodeError
  ∧ load_gym (fun _ => some (.ok (.num 3))) "p.json" 0 "d" "t"
      = .error (.validation "Unexpected save file format: expected json instance at root.")
  ∧ load_gym (fun _ => some (.ok (.obj [("schema_version", .num 2)]))) "p.json" 0 "d" "t"
      = .error (.validation "Unsupported schema version: expected 1.") :=
  ⟨(c6_amended_load_error_cases (fun _ => none) "p.json" 0 "d" "t").1 rfl,
   (c6_amended_load_error_cases (fun _ => some (.error ())) "p.json" 0 "d" "t").2.1 rfl,
   (c6_amended_load_error_cases (fun _ => some (.ok (.num 3))) "p.json" 0 "d" "t").2.2.1
     (.num 3) rfl (by decide),
   (c6_amended_load_error_cases (fun _ => some (.ok (.obj [("schema_version", .num 2)])))
     "p.json" 0 "d" "t").2.2.2 [("schema_version", .num 2)] rfl (by decide)⟩

/-- The temporary sibling path differs from the target path (it is four
characters longer). -/
theorem tmp_path_ne (p : String) : tmp_path p ≠ p := by
  intro h
  have hlen := congrArg String.length h
  rw [tmp_path, String.length_append] at hlen
  have h4 : (".tmp" : String).length = 4 := rfl
  rw [h4] at hlen
  omega

/-- Claim C7: `save_gym` performs exactly the steps mkdirs, write-to-temp,
rename-over-target, in that order, and after any strict prefix of the steps
that stops before the rename (n < 3), the content of the target path is
exactly what it was before the save: a crash between the temp-file write and
the rename leaves a pre-existing file at the target path unchanged. -/
theorem c7_save_preserves_target_before_rename (fs : FS) (p : String) (g : Gym) (n : ℕ)
    (h : n < 3) :
    save_gym_steps g p
      = [.mkdirs, .write (tmp_path p) (.ok (save_gym_payload g)), .rename (tmp_path p) p]
  ∧ applyOps fs ((save_gym_steps g p).take n) p = fs p := by
  refine ⟨rfl, ?_⟩
  have hne : p ≠ tmp_path p := fun hh => tmp_path_ne p hh.symm
  interval_cases n <;> simp [save_gym_steps, applyOps, FsOp.apply, hne]

/-- Witness for claim C7: the longest pre-rename prefix (mkdirs then
temp-file write) leaves the target path of an empty file system empty. -/
theorem c7_witness :
    2 < 3
  ∧ (save_gym_steps gymX "a.json"
       = [.mkdirs, .write (tmp_path "a.json") (.ok (save_gym_payload gymX)),
          .rename (tmp_path "a.json") "a.json"]
     ∧ applyOps fsEmpty ((save_gym_steps gymX "a.json").take 2) "a.json"
         = fsEmpty "a.json") :=
  ⟨by decide, c7_save_preserves_target_before_rename fsEmpty "a.json" gymX 2 (by decide)⟩

/-- Claim C8: CANCELLED is terminal.  On a cancelled membership, `pause` and
`resume` raise `ValidationError` and leave the status CANCELLED; `cancel` has
no precondition and succeeds from every status, so cancelling twice leaves
the status CANCELLED with the second call raising no error. -/
theorem c8_cancelled_is_terminal (m mm : BaseMembership) (h : m.status = .CANCELLED) :
    (m.pause).1 = .error (.validation "Cannot pause a cancelled membership.")
  ∧ (m.pause).2.status = .CANCELLED
  ∧ (m.resume).1 = .error (.validation "Cannot resume a cancelled membership.")
  ∧ (m.resume).2.status = .CANCELLED
  ∧ (mm.cancel).1 = .ok ()
  ∧ ((mm.cancel).2.cancel).1 = .ok ()
  ∧ ((mm.cancel).2.cancel).2.status = .CANCELLED := by
  simp [BaseMembership.pause, BaseMembership.resume, BaseMembership.cancel, h]

/-- Witness for claim C8, at a concrete cancelled membership (for pause and
resume) and a concrete active membership (cancelled twice). -/
theorem c8_witness :
    msCancelled.status = .CANCELLED
  ∧ ((msCancelled.pause).1 = .error (.validation "Cannot pause a cancelled membership.")
     ∧ (msCancelled.pause).2.status = .CANCELLED
     ∧ (msCancelled.resume).1 = .error (.validation "Cannot resume a cancelled membership.")
     ∧ (msCancelled.resume).2.status = .CANCELLED
     ∧ (msActiveBasic.cancel).1 = .ok ()
     ∧ ((msActiveBasic.cancel).2.cancel).1 = .ok ()
     ∧ ((msActiveBasic.cancel).2.cancel).2.status = .CANCELLED) :=
  ⟨by decide, c8_cancelled_is_terminal msCancelled msActiveBasic (by decide)⟩

/-- `PaymentRecord.create` succeeds and returns the stripped record whenever
its four validations pass. -/
theorem PaymentRecord.create_ok (member_id member_name : String) (amount : ℚ)
    (status : PaymentStatus) (message fresh_id now : String)
    (h1 : member_id.pyStrip ≠ "") (h2 : member_name.pyStrip ≠ "")
    (h3 : 0 ≤ amount) (h4 : message.pyStrip ≠ "") :
    PaymentRecord.create member_id member_name amount status message fresh_id now
      = .ok { id := fresh_id, member_id := member_id.pyStrip,
              member_name := member_name.pyStrip, amount := amount, status := status,
              message := message.pyStrip, created_at := now } := by
  simp [PaymentRecord.create, h1, h2, h4, not_lt.mpr h3]

/-- Whatever the threshold decision, the record `FakePaymentProcessor.charge`
returns carries exactly the requested amount. -/
theorem FakePaymentProcessor.charge_amount (proc : FakePaymentProcessor)
    (member_id member_name : String) (amount : ℚ) (fresh_id now : String)
    (h1 : member_id.pyStrip ≠ "") (h2 : member_name.pyStrip ≠ "") (h3 : 0 ≤ amount) :
    Except.map PaymentRecord.amount
      (proc.charge member_id member_name amount fresh_id now) = .ok amount := by
  unfold FakePaymentProcessor.charge
  split
  · rw [PaymentRecord.create_ok _ _ _ _ _ _ _ h1 h2 h3 (by decide)]
    rfl
  · rw [PaymentRecord.create_ok _ _ _ _ _ _ _ h1 h2 h3 (by decide)]
    rfl

/-- Claim C9: for a member present in the gym, `charge_member` raises
`ValidationError` when the membership is not ACTIVE; it raises
`ValidationError` when an explicit negative amount is supplied (whatever the
membership status); and on an active member with no explicit amount the
charged amount — the amount on the returned payment record — equals the
member's `membership.monthly_price`. -/
theorem c9_charge_member_rules (g : Gym) (member_id : String) (m : Member)
    (fresh now : String)
    (hm : dget? g.members member_id.pyStrip = some m) :
    (m.is_active = false → ∀ amount,
      (g.charge_member member_id amount fresh now).1
        = .error (.validation "Cannot charge an inactive member."))
  ∧ (∀ a : ℚ, a < 0 →
      isValidationError (g.charge_member member_id (some a) fresh now).1 = true)
  ∧ (m.is_active = true → m.id.pyStrip ≠ "" → m.full_name.pyStrip ≠ "" →
      0 ≤ m.monthly_price →
      Except.map PaymentRecord.amount (g.charge_member member_id none fresh now).1
        = .ok m.monthly_price) := by
  refine ⟨?_, ?_, ?_⟩
  · intro hact amount
    simp [Gym.charge_member, Gym.get_member, hm, hact]
  · intro a ha
    cases hact : m.is_active
    · simp [Gym.charge_member, Gym.get_member, hm, hact, isValidationError]
    · simp [Gym.charge_member, Gym.get_member, hm, hact, ha, isValidationError]
  · intro hact hid hname hmp
    have hch := FakePaymentProcessor.charge_amount g.payment_processor m.id m.full_name
      m.monthly_price fresh now hid hname hmp
    have hneg : ¬ m.membership.monthly_price < 0 := by
      have h0 := not_lt.mpr hmp
      simpa [Member.monthly_price] using h0
    simp only [Member.monthly_price] at hch
    simp [Gym.charge_member, Gym.get_member, hm, hact, hneg, Member.monthly_price]
    cases hcr : g.payment_processor.charge m.id m.full_name m.membership.monthly_price
        fresh now with
    | error e =>
      rw [hcr] at hch
      simp [Except.map] at hch
    | ok r =>
      rw [hcr] at hch
      simp only [Except.map, Except.ok.injEq] at hch
      show (Except.ok r.amount : Except Err ℚ) = Except.ok m.membership.monthly_price
      rw [hch]

/-- The member's monthly price in the fixture: no discount on the basic base
price 29.99. -/
theorem memberAna_monthly_price : memberAna.monthly_price = 2999 / 100 := by
  unfold Member.monthly_price memberAna msActiveBasic BasicMembership.make
    BaseMembership.monthly_price BaseMembership.base_monthly_price PricePolicy.apply round2
  norm_num

/-- Witness for claim C9, at the gym holding the active member `memberAna`. -/
theorem c9_witness :
    dget? gymAna.members ("mem_1" : String).pyStrip = some memberAna
  ∧ ((memberAna.is_active = false → ∀ amount,
        (gymAna.charge_member "mem_1" amount "pay_1" "2025-02-01T00:00:00").1
          = .error (.validation "Cannot charge an inactive member."))
     ∧ (∀ a : ℚ, a < 0 →
          isValidationError
            (gymAna.charge_member "mem_1" (some a) "pay_1" "2025-02-01T00:00:00").1 = true)
     ∧ (memberAna.is_active = true → memberAna.id.pyStrip ≠ "" →
          memberAna.full_name.pyStrip ≠ "" → 0 ≤ memberAna.monthly_price →
          Except.map PaymentRecord.amount
              (gymAna.charge_member "mem_1" none "pay_1" "2025-02-01T00:00:00").1
            = .ok memberAna.monthly_price)) :=
  ⟨by decide,
   c9_charge_member_rules gymAna "mem_1" memberAna "pay_1" "2025-02-01T00:00:00" (by decide)⟩

/-- Appending a FAILED record does not change a member's success total. -/
theorem total_success_for_member_append_failed (l : InMemoryPaymentLedger)
    (r : PaymentRecord) (mid : String) (h : r.status = .FAILED) :
    (l.add r).total_success_for_member mid = l.total_success_for_member mid := by
  simp [InMemoryPaymentLedger.add, InMemoryPaymentLedger.total_success_for_member,
    List.filter_append, h]

/-- Appending a FAILED record does not change the all-member success total. -/
theorem total_success_for_all_append_failed (l : InMemoryPaymentLedger)
    (r : PaymentRecord) (h : r.status = .FAILED) :
    (l.add r).total_success_for_all = l.total_success_for_all := by
  simp [InMemoryPaymentLedger.add, InMemoryPaymentLedger.total_success_for_all,
    List.filter_append, h]

/-- The FAILED record `charge_member` produces when the amount exceeds the
fail threshold. -/
def failedRecord (m : Member) (a : ℚ) (fresh now : String) : PaymentRecord :=
  { id := fresh, member_id := m.id.pyStrip, member_name := m.full_name.pyStrip,
    amount := a, status := .FAILED,
    message := "Simulated Failure, amount exceeds threshold", created_at := now }

/-- Claim C10: charging an active member a non-negative amount strictly above
the processor's fail threshold does not raise: it returns the FAILED payment
record, appends exactly that record to the ledger, and the FAILED record is
excluded from `total_paid_by_member` and `total_revenue`, which therefore
keep their previous values (they sum SUCCESS records only). -/
theorem c10_failed_charge_recorded_and_excluded (g : Gym) (member_id : String)
    (m : Member) (t a : ℚ) (fresh now : String)
    (hm : dget? g.members member_id.pyStrip = some m)
    (hact : m.is_active = true)
    (hid : m.id.pyStrip ≠ "") (hname : m.full_name.pyStrip ≠ "")
    (hthr : g.payment_processor.fail_threshold = some t)
    (ha : 0 ≤ a) (hta : t < a) :
    (g.charge_member member_id (some a) fresh now).1 = .ok (failedRecord m a fresh now)
  ∧ (g.charge_member member_id (some a) fresh now).2.payment_ledger.records
      = g.payment_ledger.records ++ [failedRecord m a fresh now]
  ∧ (g.charge_member member_id (some a) fresh now).2.total_paid_by_member member_id
      = g.total_paid_by_member member_id
  ∧ (g.charge_member member_id (some a) fresh now).2.total_revenue = g.total_revenue := by
  have hmsg : ("Simulated Failure, amount exceeds threshold" : String).pyStrip
      = "Simulated Failure, amount exceeds threshold" := by decide
  have hcharge : g.payment_processor.charge m.id m.full_name a fresh now
      = .ok (failedRecord m a fresh now) := by
    unfold FakePaymentProcessor.charge
    rw [hthr]
    simp only [hta, decide_eq_true_eq, if_pos]
    rw [PaymentRecord.create_ok _ _ _ _ _ _ _ hid hname ha (by decide)]
    simp [failedRecord, hmsg]
  have hcm : g.charge_member member_id (some a) fresh now
      = (.ok (failedRecord m a fresh now),
         { g with payment_ledger := g.payment_ledger.add (failedRecord m a fresh now) }) := by
    simp [Gym.charge_member, Gym.get_member, hm, hact, not_lt.mpr ha, hcharge]
  refine ⟨?_, ?_, ?_, ?_⟩
  · rw [hcm]
  · rw [hcm]
    simp [InMemoryPaymentLedger.add]
  · rw [hcm]
    simp only [Gym.total_paid_by_member, Gym.get_member, hm]
    rw [total_success_for_member_append_failed _ _ _ rfl]
  · rw [hcm]
    simp only [Gym.total_revenue]
    rw [total_success_for_all_append_failed _ _ rfl]

/-- Witness for claim C10: the gym holding `memberAna` with a fail threshold
of 100 charged 150. -/
theorem c10_witness :
    dget? ({ gymAna with payment_processor := { fail_threshold := some 100 } } : Gym).members
        ("mem_1" : String).pyStrip = some memberAna
  ∧ memberAna.is_active = true
  ∧ memberAna.id.pyStrip ≠ ""
  ∧ memberAna.full_name.pyStrip ≠ ""
  ∧ ({ gymAna with payment_processor := { fail_threshold := some 100 } } : Gym
      ).payment_processor.fail_threshold = some 100
  ∧ (0 : ℚ) ≤ 150
  ∧ (100 : ℚ) < 150
  ∧ (let gthr : Gym := { gymAna with payment_processor := { fail_threshold := some 100 } };
     (gthr.charge_member "mem_1" (some 150) "pay_1" "t1").1
        = .ok (failedRecord memberAna 150 "pay_1" "t1")
     ∧ (gthr.charge_member "mem_1" (some 150) "pay_1" "t1").2.payment_ledger.records
        = gthr.payment_ledger.records ++ [failedRecord memberAna 150 "pay_1" "t1"]
     ∧ (gthr.charge_member "mem_1" (some 150) "pay_1" "t1").2.total_paid_by_member "mem_1"
        = gthr.total_paid_by_member "mem_1"
     ∧ (gthr.charge_member "mem_1" (some 150) "pay_1" "t1").2.total_revenue
        = gthr.total_revenue) :=
  ⟨by decide, by decide, by decide, by decide, rfl, by norm_num, by norm_num,
   c10_failed_charge_recorded_and_excluded
     { gymAna with payment_processor := { fail_threshold := some 100 } }
     "mem_1" memberAna 100 150 "pay_1" "t1"
     (by decide) (by decide) (by decide) (by decide) rfl (by norm_num) (by norm_num)⟩

end GymSpec
